import Mathlib

/-!
Verification development for the literacy-assessment repository
(packages `literacy_score` and `litreading`).

The Python sources are shallowly embedded: pandas/numpy float values
that can become infinite or NaN are represented by `PdVal`, machine
floats by rationals, fallible Python functions by `Except`, and the
mutable objects (`DataGrader`, `ModelTrainer`, `BaseModel`/`Grader`)
by explicit state records, with logger calls recorded in a `log` list.
External collaborators that are not part of the repository sources
(sklearn estimators, joblib deserialization, the train/test splitter)
are modelled from the specification, each marked by a doc comment.
-/

/-- A pandas/numpy float cell: a finite rational, an infinity, or NaN. -/
inductive PdVal where
  | fin (q : ℚ)
  | posInf
  | negInf
  | nan
deriving DecidableEq

/-- numpy float division semantics, as used by `pandas.Series.div`:
division by zero yields a signed infinity (NaN for 0/0). -/
def pdDiv : PdVal → PdVal → PdVal
  | .fin a, .fin b =>
      if b = 0 then (if a = 0 then .nan else if 0 < a then .posInf else .negInf)
      else .fin (a / b)
  | .nan, _ => .nan
  | _, .nan => .nan
  | .posInf, .posInf => .nan
  | .posInf, .negInf => .nan
  | .negInf, .posInf => .nan
  | .negInf, .negInf => .nan
  | .posInf, .fin b => if b < 0 then .negInf else .posInf
  | .negInf, .fin b => if b < 0 then .posInf else .negInf
  | .fin _, .posInf => .fin 0
  | .fin _, .negInf => .fin 0

/-- IEEE-754 / numpy `round` on an exactly represented value: round to the
nearest integer, ties to the even integer.  This is the rounding performed
by `pandas.Series.round()` in `DataGrader.estimate_wcpm`. -/
def roundHalfEven (q : ℚ) : ℤ :=
  if q - ⌊q⌋ < 1/2 then ⌊q⌋
  else if (1:ℚ)/2 < q - ⌊q⌋ then ⌊q⌋ + 1
  else if ⌊q⌋ % 2 = 0 then ⌊q⌋ else ⌊q⌋ + 1

/-- The cell-level lift of `pandas.Series.round()`: applied to finite cells; infinities and NaN are
left untouched. -/
def pdRound : PdVal → PdVal
  | .fin q => .fin ((roundHalfEven q : ℤ) : ℚ)
  | v => v

/-- Rounding as the specification words it: "rounded to the nearest
integer (ties round half up)".  Kept separate from `roundHalfEven`, which
embeds what the code does, so the two can be compared. -/
def spec_roundHalfUp (q : ℚ) : ℤ := ⌊q + 1/2⌋

/-- Modelled from the spec: `MODELS_PATH` comes from `literacy_score.config`,
which is not under the repository sources; only its role as a path root
matters here. -/
def MODELS_PATH : String := "models/"

/-- A deserialized regressor artifact as used by `DataGrader`
(`joblib`-loaded object).  Its prediction behaviour is a black box, so it
is carried as an arbitrary function from a feature row to a raw
word-count estimate. -/
structure DGModel where
  predictRow : List ℚ → ℚ

/-- State of `literacy_score.grade.DataGrader`.  `model_store` models the
artifact files on disk (`open_file` from `grading_utils`, not under the
repository sources): the deserialized object obtained for each path.
`durations` is the `scored_duration` column of `self.data`, `features`
the feature table, `wcpm_estimations` the column added by
`estimate_wcpm(inplace=True)`. -/
structure DataGrader where
  model_store : String → DGModel
  scaler_transform : List ℚ → List ℚ
  model : DGModel
  model_type : String
  durations : List ℚ
  features : List (List ℚ)
  wcpm_estimations : Option (List PdVal)
  log : List String

/-- Log message of the unknown-model branch of `DataGrader.set_model`. -/
def noSuchModelMsg (mt : String) : String :=
  "No such model is available: " ++ mt ++ ". please choose between RF and XGB"

/-- Embedding of `DataGrader.set_model` (src/literacy_score/grade.py).
A request equal to the current `model_type` is a no-op; RF and XGB load
the corresponding hypertuned artifact and update `model_type`; any other
name only logs an error. -/
def DataGrader.set_model (g : DataGrader) (model_type : String) : DataGrader :=
  if g.model_type = model_type then g
  else if model_type = "RF" then
    { g with model := g.model_store (MODELS_PATH ++ "rf_hypertuned.pkl"),
             model_type := model_type }
  else if model_type = "XGB" then
    { g with model := g.model_store (MODELS_PATH ++ "xgb_hypertuned.pkl"),
             model_type := model_type }
  else { g with log := g.log ++ [noSuchModelMsg model_type] }

/-- One row of the WCPM computation of `DataGrader.estimate_wcpm`:
`wc.div(duration/60, fill_value=0).round()`.  `fill_value` only fills
missing cells of aligned series and has no effect on a fully aligned
batch, so it does not appear. -/
def wcpmRow (wc dur : ℚ) : PdVal :=
  pdRound (pdDiv (.fin wc) (.fin (dur / 60)))

/-- Embedding of `DataGrader.estimate_wcpm` (src/literacy_score/grade.py).
Scales `self.features` in place, predicts a raw word count per row with
the current model (after an optional `set_model`), and divides by
`scored_duration/60`, rounding the quotient.  Returns the updated state
and the `wcpm_estimations` series. -/
def DataGrader.estimate_wcpm (g : DataGrader) (inplace : Bool)
    (model_arg : Option String) : DataGrader × List PdVal :=
  let g1 := match model_arg with
    | none => g
    | some mt => g.set_model mt
  let feats := g1.features.map g1.scaler_transform
  let g2 := { g1 with features := feats }
  let wc := feats.map g2.model.predictRow
  let wcpm := (wc.zip g2.durations).map (fun p => wcpmRow p.1 p.2)
  if inplace then ({ g2 with wcpm_estimations := some wcpm }, wcpm)
  else (g2, wcpm)

/-- Modelled from the spec: the fixed random seed `SEED` from
`literacy_score.config` (not under the repository sources); only its
fixedness matters. -/
def SEED : Nat := 105

/-- A sklearn regressor as `ModelTrainer` uses it: a black-box estimator
identified by its class name, with keyword parameters and, once `fit`
has been called, the training data it was fitted on. -/
structure SkReg where
  kind : String
  params : List (String × ℚ)
  fittedOn : Option (List (List ℚ) × List ℚ)
deriving DecidableEq

/-- Fresh, unfitted estimator of a given class with given parameters. -/
def mkReg (kind : String) (params : List (String × ℚ)) : SkReg :=
  { kind := kind, params := params, fittedOn := none }

/-- Insert-or-overwrite of one keyword parameter. -/
def updateParam (ps : List (String × ℚ)) (kv : String × ℚ) : List (String × ℚ) :=
  if ps.any (fun p => p.1 = kv.1)
  then ps.map (fun p => if p.1 = kv.1 then kv else p)
  else ps ++ [kv]

/-- sklearn `set_params`: updates keyword parameters, leaves fitted state. -/
def SkReg.set_params (m : SkReg) (ps : List (String × ℚ)) : SkReg :=
  { m with params := ps.foldl updateParam m.params }

/-- sklearn `fit`: records the training data the estimator was fitted on. -/
def SkReg.fit (m : SkReg) (X : List (List ℚ)) (y : List ℚ) : SkReg :=
  { m with fittedOn := some (X, y) }

/-- sklearn `StandardScaler` fitted state.  sklearn stores per-column
means and `scale_` equal to the square root of the per-column variance;
the square root of a rational is irrational, so the variance itself
stands in for `scale_` here — every claim proved below depends only on
which rows the statistics are computed from, never on the numeric
formula. -/
structure StandardScaler where
  mean_ : List ℚ
  scale_ : List ℚ
deriving DecidableEq

/-- Mean of a column (0 for an empty column, as a harmless convention). -/
def listMean (l : List ℚ) : ℚ :=
  if l.length = 0 then 0 else l.sum / (l.length : ℚ)

/-- Biased (ddof = 0) variance of a column, as sklearn computes it. -/
def listVar (l : List ℚ) : ℚ :=
  listMean (l.map (fun x => (x - listMean l) * (x - listMean l)))

/-- Embedding of `StandardScaler.fit`: per-column statistics of the given matrix. -/
def StandardScaler.fit (X : List (List ℚ)) : StandardScaler :=
  { mean_ := X.transpose.map listMean, scale_ := X.transpose.map listVar }

/-- Embedding of `StandardScaler.transform`: center and scale each row with the fitted
statistics (rational division by zero in a constant column degenerates
to 0, a case no claim touches). -/
def StandardScaler.transform (sc : StandardScaler) (X : List (List ℚ)) :
    List (List ℚ) :=
  X.map (fun row =>
    (row.zip (sc.mean_.zip sc.scale_)).map (fun p => (p.1 - p.2.1) / p.2.2))

/-- Simple deterministic pseudo-random step (a textbook linear
congruential generator), used only to key the deterministic shuffle. -/
def lcg (x : Nat) : Nat := (1103515245 * x + 12345) % 2147483648

/-- Deterministic rotation of a list. -/
def rotateBy (k : Nat) (l : List α) : List α := l.drop k ++ l.take k

/-- Modelled from the spec: `sklearn.model_selection.train_test_split`
with `random_state = SEED` is an external collaborator; it is modelled
as a deterministic shuffle keyed by the seed followed by splitting off a
test fraction (rounded up), one pair `(train, test)`. -/
def trainTestSplit (rows : List α) (test_size : ℚ) (seed : Nat) :
    List α × List α :=
  let n := rows.length
  let shuffled := rotateBy (lcg seed % max 1 n) rows
  let n_test := min n (Nat.ceil (test_size * (n : ℚ)))
  (shuffled.drop n_test, shuffled.take n_test)

/-- One row of the trainer's feature table: the numeric feature columns
and the `human_wc` target column split off by `prepare_train_test_set`. -/
structure FeatRow where
  x : List ℚ
  human_wc : ℚ
deriving DecidableEq

/-- Python exception kinds surfaced by the embedded methods. -/
inductive PyErr where
  | typeError (msg : String)
  | fileNotFoundError (path : String)
  | valueError (msg : String)
  | attributeError
  | nameError
deriving DecidableEq

/-- State of `literacy_score.train.ModelTrainer`.  Attributes that may
not yet exist on the Python object (`model` after a failed
`set_new_model`, `X_train` before `prepare_train_test_set`, ...) are
`Option`s.  `determine_outliers_mask` is modelled from the spec: it is
`Dataset.determine_outliers_mask(tol)` (the `Dataset` class is not under
the repository sources), the keep-mask over feature rows for a given
tolerance. -/
structure ModelTrainer where
  model : Option SkReg
  model_type : Option String
  features : Option (List FeatRow)
  X_train : Option (List (List ℚ))
  X_test : Option (List (List ℚ))
  Y_train : Option (List ℚ)
  Y_test : Option (List ℚ)
  scaler : Option StandardScaler
  test_idx : Option (List Nat)
  datapoints : Option Nat
  determine_outliers_mask : ℚ → List Bool
  log : List String

/-- Log message of the unknown-model branch of
`ModelTrainer.set_new_model`. -/
def unknownModelMsg (mt : String) : String :=
  "Sorry, training for mode_type " ++ mt ++ " has not been implemented yet."

/-- Embedding of `ModelTrainer.set_new_model` (src/literacy_score/train.py).
The four recognized names build a fresh estimator and update
`model_type`; any other name logs an error and returns, leaving both
fields untouched; non-empty `params` are applied with `set_params`. -/
def ModelTrainer.set_new_model (s : ModelTrainer) (model_type : String)
    (params : List (String × ℚ)) : ModelTrainer :=
  let store (m : SkReg) : ModelTrainer :=
    let s1 := { s with model := some m, model_type := some model_type }
    if params = [] then s1
    else { s1 with model := some (m.set_params params) }
  if model_type = "RF" then
    store (mkReg ("RandomForestRegressor") [("random_state", (SEED : ℚ))])
  else if model_type = "XGB" then
    store (mkReg ("XGBRegressor") [("random_state", (SEED : ℚ))])
  else if model_type = "KNN" then
    store (mkReg ("KNeighborsRegressor") [])
  else if model_type = "Baseline" then
    store (mkReg ("BaselineModel") [])
  else { s with log := s.log ++ [unknownModelMsg model_type] }

/-- Log message of the not-prepared branch of `ModelTrainer.train`. -/
def notPreparedMsg : String :=
  "X_train, Y_train not defined: Please prepare train and test set before training by calling ModelTrainer.prepare_train_test_set()"

/-- Embedding of `ModelTrainer.train` (src/literacy_score/train.py).
`set_params` runs first; a missing `X_train` is caught, logged and the
method returns (no exception escapes); otherwise the model is fitted on
the prepared training partition. -/
def ModelTrainer.train (s : ModelTrainer) (params : List (String × ℚ)) :
    Except PyErr ModelTrainer :=
  match s.model with
  | none => .error .attributeError
  | some m =>
    let m1 := m.set_params params
    match s.X_train with
    | none => .ok { s with model := some m1, log := s.log ++ [notPreparedMsg] }
    | some xt =>
      match s.Y_train with
      | none => .error .attributeError
      | some yt => .ok { s with model := some (m1.fit xt yt) }

/-- Rows kept by a boolean keep-mask, with their original index
(pandas boolean indexing preserves the original index). -/
def keptIndexed (feats : List FeatRow) (mask : List Bool) :
    List (Nat × FeatRow) :=
  ((feats.enum).zip mask).filterMap (fun p => if p.2 then some p.1 else none)

/-- The indexed feature rows entering the split: all rows, or, with
outlier removal on, only the rows kept by the mask. -/
def prepKept (feats : List FeatRow) (mask : List Bool) (ro : Bool) :
    List (Nat × FeatRow) :=
  if ro then keptIndexed feats mask else feats.enum

/-- Log message of the outlier-removal branch of
`ModelTrainer.prepare_train_test_set`. -/
def outlierRemovalMsg : String :=
  "Removed outliers, datapoints remaining for training/testing"

/-- The non-state result of `prepare_train_test_set(inplace=False)`:
`(X_train, X_test, Y_train, Y_test)`. -/
def PrepOut : Type :=
  List (List ℚ) × List (List ℚ) × List ℚ × List ℚ

/-- Embedding of `ModelTrainer.prepare_train_test_set`
(src/literacy_score/train.py).  Optionally filters the feature table by
the outlier keep-mask, splits deterministically under the fixed `SEED`,
fits a freshly constructed scaler on the raw training partition only and
transforms both partitions with it; `scaler`, `test_idx` and
`datapoints` are set on the state in both modes, the partitions only
when `inplace`. -/
def ModelTrainer.prepare_train_test_set (s : ModelTrainer)
    (remove_outliers : Bool) (outliers_tol test_set_size : ℚ)
    (inplace : Bool) : Except PyErr (ModelTrainer × Option PrepOut) :=
  match s.features with
  | none => .error .attributeError
  | some feats =>
    let kept := prepKept feats (s.determine_outliers_mask outliers_tol)
      remove_outliers
    let dp := if remove_outliers
      then (s.determine_outliers_mask outliers_tol).count true
      else feats.length
    let tr := (trainTestSplit kept test_set_size SEED).1
    let te := (trainTestSplit kept test_set_size SEED).2
    let X_train_raw := tr.map (fun p => p.2.x)
    let X_test_raw := te.map (fun p => p.2.x)
    let sc := StandardScaler.fit X_train_raw
    let s1 := { s with
      features := if remove_outliers then some (kept.map (fun p => p.2))
                  else s.features,
      datapoints := some dp,
      test_idx := some (te.map (fun p => p.1)),
      scaler := some sc,
      log := s.log ++ (if remove_outliers then [outlierRemovalMsg] else []) }
    if inplace then
      .ok ({ s1 with X_train := some (sc.transform X_train_raw),
                     X_test := some (sc.transform X_test_raw),
                     Y_train := some (tr.map (fun p => p.2.human_wc)),
                     Y_test := some (te.map (fun p => p.2.human_wc)) }, none)
    else
      .ok (s1, some (sc.transform X_train_raw, sc.transform X_test_raw,
                     tr.map (fun p => p.2.human_wc),
                     te.map (fun p => p.2.human_wc)))

/-- What `ModelTrainer.grid_search` reports before deciding whether to
run: the number of candidate parameter combinations (printed before the
confirmation prompt), and whether the cross-validated search was
executed. -/
structure GridReport where
  n_combi : Nat
  ran : Bool
deriving DecidableEq

/-- The local `estimator` bound at the top of `grid_search`: only the
three tuned model kinds get one; any other `model_type` leaves the
Python local unbound (a `NameError` at first use). -/
def estimatorFor (mt : String) : Option SkReg :=
  if mt = "RF" then
    some (mkReg ("RandomForestRegressor") [("random_state", (SEED : ℚ))])
  else if mt = "XGB" then
    some (mkReg ("XGBRegressor") [("random_state", (SEED : ℚ))])
  else if mt = "KNN" then
    some (mkReg ("KNeighborsRegressor") [])
  else none

/-- Modelled from the spec: `sklearn.model_selection.GridSearchCV` is an
external collaborator; `best_estimator_` after `fit` is modelled as a
deterministic choice from the grid, refit on the training data — only
that it is some fitted estimator matters to the claims. -/
def bestEstimator (est : SkReg) (grid : List (String × List ℚ))
    (_cv_folds : Nat) (xt : List (List ℚ)) (yt : List ℚ) : SkReg :=
  (est.set_params (grid.map (fun p => (p.1, p.2.headD 0)))).fit xt yt

/-- Embedding of `ModelTrainer.grid_search` (src/literacy_score/train.py).
The candidate count (the product of the grid value-list lengths, as
`len(list(itertools.product(*cv_params.values())))` computes) is printed
before the interactive prompt; the search is skipped only when the
answer is exactly the string n or the string no, in which case the state
is returned unchanged; any other answer runs the search and replaces
`self.model` with the best estimator.  A missing `X_train` is caught and
logged around `fit`, but the following `best_estimator_` access then
raises an uncaught `AttributeError`. -/
def ModelTrainer.grid_search (s : ModelTrainer)
    (cv_params : List (String × List ℚ)) (cv_folds : Nat)
    (answer : String) : Except PyErr (ModelTrainer × GridReport) :=
  match (match s.model_type with
         | none => none
         | some mt => estimatorFor mt) with
  | none => .error .nameError
  | some est =>
    let n_combi := (cv_params.map (fun p => p.2.length)).prod
    if answer = "n" ∨ answer = "no" then
      .ok (s, { n_combi := n_combi, ran := false })
    else
      match s.X_train, s.Y_train with
      | some xt, some yt =>
        .ok ({ s with model := some (bestEstimator est cv_params cv_folds xt yt) },
             { n_combi := n_combi, ran := true })
      | _, _ => .error .attributeError

/-- A Python object deserialized from a model artifact file: either a
sklearn `Pipeline` or some other object. -/
inductive PyObj where
  | pipeline (id : Nat)
  | other (id : Nat)
deriving DecidableEq

/-- Whether a deserialized object is a sklearn `Pipeline`
(`isinstance(model, Pipeline)`). -/
def PyObj.isPipeline : PyObj → Bool
  | .pipeline _ => true
  | .other _ => false

/-- A model artifact path as `load_model_from_file` probes it: whether a
regular file exists there, its extension, and the object stored in it.
`open_file` (litreading/utils/files.py, not under the repository
sources) is modelled as always yielding the stored object. -/
structure MFile where
  path : String
  is_file : Bool
  suffix : String
  content : PyObj
deriving DecidableEq

/-- Embedding of `load_model_from_file` (src/litreading/base.py): a
missing file raises `FileNotFoundError`, a non-`.pkl` extension raises
`ValueError`, a deserialized object that is not a sklearn `Pipeline`
raises `ValueError`; otherwise the deserialized pipeline itself is
returned. -/
def load_model_from_file (f : MFile) : Except PyErr PyObj :=
  if f.is_file = false then .error (.fileNotFoundError f.path)
  else if f.suffix ≠ ".pkl" then
    .error (.valueError ("Please give a path to pickle file"))
  else
    match f.content with
    | .pipeline n => .ok (.pipeline n)
    | .other _ =>
      .error (.valueError ("Incompatible model: please give a filepath to a sklearn pipeline object"))

/-- Whether an embedded call raised (any branch of `Except.error`). -/
def isErr (r : Except PyErr PyObj) : Bool :=
  match r with
  | .error _ => true
  | .ok _ => false

/-- One raw input row of a `litreading` batch. -/
structure RawRow where
  prompt : String
  asr_transcript : String
  scored_duration : ℚ
deriving DecidableEq

/-- Whitespace tokens of a lower-cased string. -/
def tokensOf (sdata : String) : List String :=
  ((sdata.toLower).splitOn (" ")).filter (fun t => t ≠ "")

/-- Modelled from the spec: the naive word-correct count that
`LCSPreprocessor` stores in the `BASELINE_MODEL_PREDICTION_COL` column
(litreading/preprocessor.py is not under the repository sources) —
positionwise token agreement of normalized prompt and transcript. -/
def wordCorrectCount (r : RawRow) : Nat :=
  ((tokensOf r.prompt).zip (tokensOf r.asr_transcript)).countP
    (fun p => p.1 = p.2)

/-- One preprocessed row: the baseline word-correct-count column plus the
numeric feature columns. -/
structure ProcRow where
  baseline_wcc : ℚ
  feats : List ℚ
deriving DecidableEq

/-- Modelled from the spec: `LCSPreprocessor.preprocess_data`
(litreading/preprocessor.py is not under the repository sources) —
row-wise preprocessing, one output row per input row, preserving row
identity. -/
def procRow (r : RawRow) : ProcRow :=
  { baseline_wcc := (wordCorrectCount r : ℚ),
    feats := [(wordCorrectCount r : ℚ), ((tokensOf r.prompt).length : ℚ),
              ((tokensOf r.asr_transcript).length : ℚ), r.scored_duration] }

/-- Batch preprocessing: a map over rows. -/
def preprocess_data (X : List RawRow) : List ProcRow := X.map procRow

/-- A loaded sklearn pipeline as the `litreading` model uses it: the
deserialized source object and its black-box per-row prediction
function (sklearn `predict` returns one prediction per input row). -/
structure SkPipeline where
  source : PyObj
  predictRow : ProcRow → ℚ

/-- Modelled from the spec: the prediction behaviour of a deserialized
pipeline is opaque; a default stands in — no claim depends on its
values. -/
def pipelineOf (obj : PyObj) : SkPipeline :=
  { source := obj, predictRow := fun _ => 0 }

/-- State of `litreading.base.BaseModel` (and of `litreading.grade.Grader`,
which adds no fields). -/
structure BaseModelState where
  baseline_mode : Bool
  model : Option SkPipeline

/-- A Python argument that is either a real boolean or some non-boolean
value (failing `isinstance(-, bool)`). -/
inductive PyArg where
  | pybool (b : Bool)
  | nonbool (descr : String)

/-- Embedding of `BaseModel.__init__` (src/litreading/base.py): a
non-boolean `baseline_mode` raises `TypeError`; otherwise the flag is
stored and `_model` starts as `None`. -/
def BaseModel.init (baseline_mode : PyArg) : Except PyErr BaseModelState :=
  match baseline_mode with
  | .nonbool _ => .error (.typeError ("baseline_mode must be a boolean"))
  | .pybool b => .ok { baseline_mode := b, model := none }

/-- Embedding of `BaseModel._predict` (src/litreading/base.py): the batch
is preprocessed; in baseline mode the baseline word-correct-count column
of the preprocessed data is returned and the regressor is never
consulted; otherwise the loaded pipeline predicts (`None.predict` would
raise). -/
def BaseModel.predict_impl (m : BaseModelState) (X : List RawRow) :
    Except PyErr (List ℚ) :=
  let Xp := preprocess_data X
  if m.baseline_mode then .ok (Xp.map (fun r => r.baseline_wcc))
  else
    match m.model with
    | none => .error .attributeError
    | some p => .ok (Xp.map p.predictRow)

/-- Embedding of `Grader.__init__` (src/litreading/grade.py): the base
constructor validates `baseline_mode`; when it is `False` the model is
loaded from `model_filepath` (a `None` path raises `TypeError` inside
`Path`), and when it is `True` no file is touched and `_model` stays
`None`. -/
def Grader.init (model_filepath : Option MFile) (baseline_mode : PyArg) :
    Except PyErr BaseModelState :=
  match BaseModel.init baseline_mode with
  | .error e => .error e
  | .ok st =>
    if st.baseline_mode then .ok st
    else
      match model_filepath with
      | none => .error (.typeError ("argument should be a str or an os.PathLike object, not NoneType"))
      | some f =>
        match load_model_from_file f with
        | .error e => .error e
        | .ok obj => .ok { st with model := some (pipelineOf obj) }

/-- Embedding of `Grader.grade` (src/litreading/grade.py): delegates to
`BaseModel._predict`. -/
def Grader.grade (m : BaseModelState) (X : List RawRow) :
    Except PyErr (List ℚ) :=
  BaseModel.predict_impl m X

/-- A `DataGrader` whose black-box regressor predicts the constant `c` on
every row, with an identity scaler, one feature row, and the given
duration column — a minimal concrete grader state. -/
def dgConst (c : ℚ) (durs : List ℚ) : DataGrader :=
  { model_store := fun _ => { predictRow := fun _ => c },
    scaler_transform := fun v => v,
    model := { predictRow := fun _ => c },
    model_type := "XGB",
    durations := durs,
    features := [[0]],
    wcpm_estimations := none,
    log := [] }

/-- A freshly constructed trainer state with nothing set. -/
def trainerInit : ModelTrainer :=
  { model := none, model_type := none, features := none, X_train := none,
    X_test := none, Y_train := none, Y_test := none, scaler := none,
    test_idx := none, datapoints := none,
    determine_outliers_mask := fun _ => [], log := [] }

/-- A trainer with a model and a feature table but no prepared
train/test partition. -/
def mt5 : ModelTrainer :=
  { trainerInit with model := some (mkReg ("XGBRegressor") []),
                     features := some [⟨[1], 2⟩, ⟨[3], 4⟩] }

/-- A small concrete feature table. -/
def mt6feats : List FeatRow := [⟨[1, 2], 3⟩, ⟨[2, 4], 5⟩, ⟨[3, 6], 7⟩]

/-- A trainer holding `mt6feats` as its feature table. -/
def mt6 : ModelTrainer := { trainerInit with features := some mt6feats }

/-- A prepared trainer ready for `grid_search`: RF model type, an
unfitted RF model, and a train partition. -/
def gsTrainer : ModelTrainer :=
  { trainerInit with
      model := some (mkReg ("RandomForestRegressor")
                      [("random_state", (SEED : ℚ))]),
      model_type := some ("RF"),
      X_train := some [[1], [2]], Y_train := some [3, 4] }

/-- A concrete parameter grid with 2 · 3 = 6 candidate combinations. -/
def gsGrid : List (String × List ℚ) := [("a", [1, 2]), ("b", [3, 4, 5])]

/-- The state `grid_search` produces from `gsTrainer` when the search
runs on `gsGrid`. -/
def gsAfter : ModelTrainer :=
  { gsTrainer with model := some (bestEstimator
      (mkReg ("RandomForestRegressor") [("random_state", (SEED : ℚ))])
      gsGrid 5 [[1], [2]] [3, 4]) }

/-- Round-half-to-even never moves a value by more than one half. -/
lemma roundHalfEven_dist_le_half (q : ℚ) :
    |q - (roundHalfEven q : ℚ)| ≤ 1/2 := by
  have h0 : ((⌊q⌋ : ℚ)) ≤ q := Int.floor_le q
  have h1 : q < (⌊q⌋ : ℚ) + 1 := Int.lt_floor_add_one q
  unfold roundHalfEven
  split_ifs with hlt hgt hev
  · rw [abs_of_nonneg (by linarith)]; linarith
  · push_cast
    rw [abs_of_nonpos (by linarith)]; linarith
  · rw [abs_of_nonneg (by linarith)]; linarith
  · have heq : q - (⌊q⌋ : ℚ) = 1/2 := le_antisymm (not_lt.1 hgt) (not_lt.1 hlt)
    push_cast
    rw [abs_of_nonpos (by linarith)]; linarith

/-- On an exact tie `k + 1/2`, round-half-to-even picks the even
neighbour. -/
lemma roundHalfEven_tie (k : ℤ) :
    roundHalfEven ((k : ℚ) + 1/2) = if k % 2 = 0 then k else k + 1 := by
  have hfl : ⌊(k : ℚ) + 1/2⌋ = k := by
    rw [Int.floor_int_add]
    norm_num
  have hfr : ((k : ℚ) + 1/2) - (⌊(k : ℚ) + 1/2⌋ : ℚ) = 1/2 := by
    rw [hfl]; ring
  unfold roundHalfEven
  rw [hfr, hfl]
  norm_num

/-- On a prepared trainer, `train` fits the current model on the stored
train partition. -/
lemma train_prepared (s : ModelTrainer) (m : SkReg) (ps : List (String × ℚ))
    (xt : List (List ℚ)) (yt : List ℚ)
    (hm : s.model = some m) (hxt : s.X_train = some xt)
    (hyt : s.Y_train = some yt) :
    s.train ps = .ok { s with model := some ((m.set_params ps).fit xt yt) } := by
  unfold ModelTrainer.train
  rw [hm, hxt, hyt]

/-- C1: on a batch row with `scored_duration = 0` and a positive
predicted word count, `DataGrader.estimate_wcpm` produces an infinite
WCPM value — no `ConfigurationError` guard exists in the code, contrary
to the claim that the division is guarded. -/
theorem C1_zero_duration_infinite :
    (DataGrader.estimate_wcpm (dgConst 100 [0]) false none).2 =
      [PdVal.posInf] := by
  simp only [DataGrader.estimate_wcpm, dgConst, wcpmRow, pdDiv, pdRound,
    List.map, List.zip, List.zipWith]
  norm_num

/-- C2: `load_model_from_file` raises exactly when the file is absent,
does not end in `.pkl`, or does not deserialize to a sklearn `Pipeline`;
a missing file is rejected with `FileNotFoundError` naming the path, and
in every other case the deserialized pipeline itself is returned — never
a substituted default. -/
theorem C2_load_model_from_file_iff (f : MFile) :
    (isErr (load_model_from_file f) = true ↔
      (f.is_file = false ∨ f.suffix ≠ ".pkl" ∨ f.content.isPipeline = false))
    ∧ (f.is_file = false →
        load_model_from_file f = .error (.fileNotFoundError f.path))
    ∧ (∀ n, f.is_file = true → f.suffix = ".pkl" → f.content = .pipeline n →
        load_model_from_file f = .ok (.pipeline n)) := by
  obtain ⟨p, isf, suf, c⟩ := f
  refine ⟨?_, ?_, ?_⟩
  · by_cases hs : suf = ".pkl" <;>
      cases isf <;> cases c <;>
        simp [load_model_from_file, isErr, PyObj.isPipeline, hs]
  · intro h
    subst h
    simp [load_model_from_file]
  · intro n hisf hsuf hc
    subst hisf; subst hsuf; subst hc
    simp [load_model_from_file]

/-- C2 witness: a present `.pkl` file holding pipeline 7 loads as that
very pipeline, and a missing file is rejected with `FileNotFoundError`. -/
theorem C2_load_model_witness :
    load_model_from_file ⟨"models/m.pkl", true, ".pkl", PyObj.pipeline 7⟩ =
      .ok (PyObj.pipeline 7)
    ∧ load_model_from_file ⟨"missing.pkl", false, ".pkl", PyObj.pipeline 1⟩ =
      .error (.fileNotFoundError ("missing.pkl")) :=
  ⟨(C2_load_model_from_file_iff _).2.2 7 rfl rfl rfl,
   (C2_load_model_from_file_iff _).2.1 rfl⟩

/-- C3 counterexample: a raw quotient of exactly 5/2 is rounded by the
code to 2 (half to even), while the claimed half-up rounding gives 3. -/
theorem C3_half_up_counterexample :
    (DataGrader.estimate_wcpm (dgConst 5 [120]) false none).2 = [PdVal.fin 2]
    ∧ spec_roundHalfUp ((5 : ℚ) / (120 / 60)) = 3 := by
  constructor
  · simp only [DataGrader.estimate_wcpm, dgConst, wcpmRow, pdDiv, pdRound,
      List.map, List.zip, List.zipWith]
    norm_num [roundHalfEven]
  · norm_num [spec_roundHalfUp]

/-- C3 (amended): for positive duration, each WCPM cell is the raw
predicted word count divided by `duration/60`, rounded to the nearest
integer with ties going to the even integer (banker's rounding, numpy's
`round`), not half up: the result differs from the true quotient by at
most 1/2, and an exact tie `k + 1/2` rounds to `k` or `k + 1`, whichever
is even. -/
theorem C3_round_half_even (wc dur : ℚ) (hdur : 0 < dur) :
    wcpmRow wc dur = .fin ((roundHalfEven (wc / (dur / 60)) : ℤ) : ℚ)
    ∧ |wc / (dur / 60) - (roundHalfEven (wc / (dur / 60)) : ℚ)| ≤ 1/2
    ∧ ∀ k : ℤ, wc / (dur / 60) = (k : ℚ) + 1/2 →
        roundHalfEven (wc / (dur / 60)) = if k % 2 = 0 then k else k + 1 := by
  have h60 : dur / 60 ≠ 0 := ne_of_gt (div_pos hdur (by norm_num))
  refine ⟨?_, roundHalfEven_dist_le_half _, ?_⟩
  · simp only [wcpmRow, pdDiv, if_neg h60, pdRound]
  · intro k hk
    rw [hk]
    exact roundHalfEven_tie k

/-- C3 witness: the spec's end-to-end scenario, word count 6 in 30
seconds. -/
theorem C3_round_half_even_witness :
    (0 : ℚ) < 30
    ∧ wcpmRow 6 30 = .fin ((roundHalfEven ((6 : ℚ) / (30 / 60)) : ℤ) : ℚ) :=
  ⟨by norm_num, (C3_round_half_even 6 30 (by norm_num)).1⟩

/-- C4 counterexample: `set_new_model` with the unknown name SVM raises
nothing (the embedded method is total), merely appends the error log
message, and leaves the trainer with no model and no model type — it
does not raise a configuration error. -/
theorem C4_unknown_name_counterexample :
    (trainerInit.set_new_model ("SVM") []).model = none
    ∧ (trainerInit.set_new_model ("SVM") []).model_type = none
    ∧ (trainerInit.set_new_model ("SVM") []).log = [unknownModelMsg ("SVM")] :=
  ⟨rfl, rfl, rfl⟩

/-- C4 (amended): `set_new_model` accepts exactly the closed set
RF, XGB, KNN, Baseline, each installing the corresponding fresh
estimator and updating `model_type`; any name outside the set logs the
not-implemented error and returns with `model` and `model_type`
untouched — no exception is raised. -/
theorem C4_set_new_model_closed_set (s : ModelTrainer) (mt : String) :
    (mt ∉ (["RF", "XGB", "KNN", "Baseline"] : List String) →
      s.set_new_model mt [] =
        { s with log := s.log ++ [unknownModelMsg mt] })
    ∧ s.set_new_model ("RF") [] =
        { s with model := some (mkReg ("RandomForestRegressor")
                                  [("random_state", (SEED : ℚ))]),
                 model_type := some ("RF") }
    ∧ s.set_new_model ("XGB") [] =
        { s with model := some (mkReg ("XGBRegressor")
                                  [("random_state", (SEED : ℚ))]),
                 model_type := some ("XGB") }
    ∧ s.set_new_model ("KNN") [] =
        { s with model := some (mkReg ("KNeighborsRegressor") []),
                 model_type := some ("KNN") }
    ∧ s.set_new_model ("Baseline") [] =
        { s with model := some (mkReg ("BaselineModel") []),
                 model_type := some ("Baseline") } := by
  refine ⟨?_, rfl, rfl, rfl, rfl⟩
  intro h
  simp only [List.mem_cons, List.mem_singleton, not_or] at h
  obtain ⟨h1, h2, h3, h4, -⟩ := h
  unfold ModelTrainer.set_new_model
  rw [if_neg h1, if_neg h2, if_neg h3, if_neg h4]

/-- C4 witness: the unknown name SVM on a fresh trainer. -/
theorem C4_set_new_model_witness :
    ("SVM" : String) ∉ (["RF", "XGB", "KNN", "Baseline"] : List String)
    ∧ trainerInit.set_new_model ("SVM") [] =
        { trainerInit with log := trainerInit.log ++ [unknownModelMsg ("SVM")] } :=
  ⟨by decide, (C4_set_new_model_closed_set trainerInit ("SVM")).1 (by decide)⟩

/-- C5: calling `train` before `prepare_train_test_set` (no `X_train`)
reports the clear not-prepared log message and returns normally — no
exception, the model keeps its fitted state (in particular stays
unfitted) — and the caller recovers: after `prepare_train_test_set`, the
same `train` call succeeds and yields a fitted model. -/
theorem C5_train_not_prepared (s : ModelTrainer) (m : SkReg)
    (ps : List (String × ℚ)) (hm : s.model = some m) (hx : s.X_train = none) :
    (s.train ps = .ok { s with model := some (m.set_params ps),
                               log := s.log ++ [notPreparedMsg] }
      ∧ (m.set_params ps).fittedOn = m.fittedOn)
    ∧ (∀ feats, s.features = some feats →
        ∃ s1 s2 r, s.prepare_train_test_set false 0 (1/5) true = .ok (s1, none)
          ∧ s1.train ps = .ok s2 ∧ s2.model = some r ∧ r.fittedOn ≠ none) := by
  constructor
  · constructor
    · unfold ModelTrainer.train
      rw [hm, hx]
    · rfl
  · intro feats hf
    unfold ModelTrainer.prepare_train_test_set
    rw [hf]
    refine ⟨_, _, _, rfl, train_prepared _ m ps _ _ hm rfl rfl, rfl, ?_⟩
    simp [SkReg.fit]

/-- C5 witness: a trainer with a model and features but no prepared
partition. -/
theorem C5_train_not_prepared_witness :
    mt5.model = some (mkReg ("XGBRegressor") []) ∧ mt5.X_train = none
    ∧ mt5.train [] =
        .ok { mt5 with model := some ((mkReg ("XGBRegressor") []).set_params []),
                       log := mt5.log ++ [notPreparedMsg] }
    ∧ (∃ s1 s2 r, mt5.prepare_train_test_set false 0 (1/5) true = .ok (s1, none)
        ∧ s1.train [] = .ok s2 ∧ s2.model = some r ∧ r.fittedOn ≠ none) :=
  ⟨rfl, rfl,
   (C5_train_not_prepared mt5 (mkReg ("XGBRegressor") []) [] rfl rfl).1.1,
   (C5_train_not_prepared mt5 (mkReg ("XGBRegressor") []) [] rfl rfl).2 _ rfl⟩

/-- C6: `prepare_train_test_set` (in-place) succeeds on any feature
table, splitting the (optionally mask-filtered) rows into train and
test partitions by a deterministic split under the fixed `SEED`; the
fitted scaler is `StandardScaler.fit` of the raw training partition
alone (the test partition never enters the fit), that same fitted scaler
transforms both partitions, and the result is independent of every other
field of the prior state — in particular of any previously fitted
scaler or model, so the scaler is freshly constructed. -/
theorem C6_prepare_train_test_set (s : ModelTrainer) (feats : List FeatRow)
    (ro : Bool) (tol tsz : ℚ) (hf : s.features = some feats) :
    ∃ (s1 : ModelTrainer) (trRaw teRaw : List (List ℚ)),
      trRaw = ((trainTestSplit (prepKept feats (s.determine_outliers_mask tol) ro)
                 tsz SEED).1).map (fun p => p.2.x)
      ∧ teRaw = ((trainTestSplit (prepKept feats (s.determine_outliers_mask tol) ro)
                   tsz SEED).2).map (fun p => p.2.x)
      ∧ s.prepare_train_test_set ro tol tsz true = .ok (s1, none)
      ∧ s1.scaler = some (StandardScaler.fit trRaw)
      ∧ s1.X_train = some ((StandardScaler.fit trRaw).transform trRaw)
      ∧ s1.X_test = some ((StandardScaler.fit trRaw).transform teRaw)
      ∧ s1.Y_train = some (((trainTestSplit (prepKept feats
            (s.determine_outliers_mask tol) ro) tsz SEED).1).map
            (fun p => p.2.human_wc))
      ∧ s1.Y_test = some (((trainTestSplit (prepKept feats
            (s.determine_outliers_mask tol) ro) tsz SEED).2).map
            (fun p => p.2.human_wc))
      ∧ s1.model = s.model
      ∧ (∀ t : ModelTrainer, t.features = some feats →
          t.determine_outliers_mask = s.determine_outliers_mask →
          ∃ t1, t.prepare_train_test_set ro tol tsz true = .ok (t1, none)
            ∧ t1.scaler = s1.scaler ∧ t1.X_train = s1.X_train
            ∧ t1.X_test = s1.X_test) := by
  unfold ModelTrainer.prepare_train_test_set
  rw [hf]
  refine ⟨_, _, _, rfl, rfl, rfl, rfl, rfl, rfl, rfl, rfl, rfl, ?_⟩
  intro t ht htm
  rw [ht, htm]
  exact ⟨_, rfl, rfl, rfl, rfl⟩

/-- C6 witness: a three-row feature table on a fresh trainer, no outlier
removal, test fraction 1/4. -/
theorem C6_prepare_train_test_set_witness :
    mt6.features = some mt6feats
    ∧ ∃ (s1 : ModelTrainer) (trRaw teRaw : List (List ℚ)),
      trRaw = ((trainTestSplit (prepKept mt6feats
                 (mt6.determine_outliers_mask 0) false) (1/4) SEED).1).map
                 (fun p => p.2.x)
      ∧ teRaw = ((trainTestSplit (prepKept mt6feats
                   (mt6.determine_outliers_mask 0) false) (1/4) SEED).2).map
                   (fun p => p.2.x)
      ∧ mt6.prepare_train_test_set false 0 (1/4) true = .ok (s1, none)
      ∧ s1.scaler = some (StandardScaler.fit trRaw)
      ∧ s1.X_train = some ((StandardScaler.fit trRaw).transform trRaw)
      ∧ s1.X_test = some ((StandardScaler.fit trRaw).transform teRaw)
      ∧ s1.Y_train = some (((trainTestSplit (prepKept mt6feats
            (mt6.determine_outliers_mask 0) false) (1/4) SEED).1).map
            (fun p => p.2.human_wc))
      ∧ s1.Y_test = some (((trainTestSplit (prepKept mt6feats
            (mt6.determine_outliers_mask 0) false) (1/4) SEED).2).map
            (fun p => p.2.human_wc))
      ∧ s1.model = mt6.model
      ∧ (∀ t : ModelTrainer, t.features = some mt6feats →
          t.determine_outliers_mask = mt6.determine_outliers_mask →
          ∃ t1, t.prepare_train_test_set false 0 (1/4) true = .ok (t1, none)
            ∧ t1.scaler = s1.scaler ∧ t1.X_train = s1.X_train
            ∧ t1.X_test = s1.X_test) :=
  ⟨rfl, C6_prepare_train_test_set mt6 mt6feats false 0 (1/4) rfl⟩

/-- C7: in baseline mode, `Grader.grade` never consults the regressor
(the result is identical for any stored model, including none) and
returns the baseline word-correct-count column of the preprocessed
batch; both baseline and full-model mode return one numeric prediction
per input row — the same shape contract. -/
theorem C7_baseline_mode (p1 p2 : Option SkPipeline) (pl : SkPipeline)
    (X : List RawRow) :
    Grader.grade { baseline_mode := true, model := p1 } X =
      Grader.grade { baseline_mode := true, model := p2 } X
    ∧ Grader.grade { baseline_mode := true, model := p1 } X =
      .ok ((preprocess_data X).map (fun r => r.baseline_wcc))
    ∧ (∃ ys, Grader.grade { baseline_mode := true, model := p1 } X = .ok ys
        ∧ ys.length = X.length)
    ∧ (∃ ys, Grader.grade { baseline_mode := false, model := some pl } X = .ok ys
        ∧ ys.length = X.length) := by
  refine ⟨rfl, rfl, ⟨_, rfl, ?_⟩, ⟨_, rfl, ?_⟩⟩
  · simp [preprocess_data]
  · simp [preprocess_data]

/-- C8 counterexample: on a prepared trainer with a 2 × 3 grid, the
answer N — an attempted refusal that is not the explicit confirmation
y — still runs the search: the report says it ran with 6 candidates and
the trainer's model is replaced. -/
theorem C8_gate_counterexample :
    gsTrainer.grid_search gsGrid 5 ("N") =
      .ok (gsAfter, { n_combi := 6, ran := true })
    ∧ gsAfter.model ≠ gsTrainer.model := by
  constructor
  · rfl
  · intro h
    have h2 := congrArg (fun o => Option.map SkReg.fittedOn o) h
    simp [gsAfter, gsTrainer, trainerInit, bestEstimator, SkReg.fit,
      SkReg.set_params, mkReg] at h2

/-- C8 (amended): `grid_search` always reports the candidate count — the
product of the grid's value-list lengths — before deciding; the search
is skipped, with the trainer returned completely unchanged, exactly when
the answer is the literal string n or no; every other answer runs the
search and replaces the model with the best estimator. -/
theorem C8_grid_search_gate (s : ModelTrainer) (grid : List (String × List ℚ))
    (folds : Nat) (ans mt : String) (est : SkReg)
    (hmt : s.model_type = some mt) (hest : estimatorFor mt = some est) :
    ((ans = "n" ∨ ans = "no") →
      s.grid_search grid folds ans =
        .ok (s, { n_combi := (grid.map (fun p => p.2.length)).prod,
                  ran := false }))
    ∧ (¬(ans = "n" ∨ ans = "no") →
        ∀ xt yt, s.X_train = some xt → s.Y_train = some yt →
          s.grid_search grid folds ans =
            .ok ({ s with model := some (bestEstimator est grid folds xt yt) },
                 { n_combi := (grid.map (fun p => p.2.length)).prod,
                   ran := true }))
    ∧ (∀ st rep, s.grid_search grid folds ans = .ok (st, rep) →
        rep.n_combi = (grid.map (fun p => p.2.length)).prod) := by
  refine ⟨?_, ?_, ?_⟩
  · intro h
    unfold ModelTrainer.grid_search
    simp only [hmt, hest]
    rw [if_pos h]
  · intro h xt yt hxt hyt
    unfold ModelTrainer.grid_search
    simp only [hmt, hest, hxt, hyt]
    rw [if_neg h]
  · intro st rep h
    unfold ModelTrainer.grid_search at h
    simp only [hmt, hest] at h
    by_cases hans : ans = "n" ∨ ans = "no"
    · rw [if_pos hans] at h
      simp only [Except.ok.injEq, Prod.mk.injEq] at h
      rw [← h.2]
    · rw [if_neg hans] at h
      cases hX : s.X_train with
      | none =>
        rw [hX] at h
        simp at h
      | some xt =>
        rw [hX] at h
        cases hY : s.Y_train with
        | none =>
          rw [hY] at h
          simp at h
        | some yt =>
          rw [hY] at h
          simp only [Except.ok.injEq, Prod.mk.injEq] at h
          rw [← h.2]

/-- C8 witness: answering n on the prepared trainer skips the search and
leaves the state unchanged, with the count 6 still reported. -/
theorem C8_grid_search_gate_witness :
    gsTrainer.model_type = some ("RF")
    ∧ estimatorFor ("RF") =
        some (mkReg ("RandomForestRegressor") [("random_state", (SEED : ℚ))])
    ∧ (("n" : String) = "n" ∨ ("n" : String) = "no")
    ∧ gsTrainer.grid_search gsGrid 5 ("n") =
        .ok (gsTrainer, { n_combi := 6, ran := false }) := by
  refine ⟨rfl, rfl, Or.inl rfl, ?_⟩
  exact (C8_grid_search_gate gsTrainer gsGrid 5 ("n") ("RF") _ rfl rfl).1
    (Or.inl rfl)

/-- C9: any non-boolean `baseline_mode` argument makes `BaseModel` — and
hence `Grader` — raise `TypeError`; with `baseline_mode = True`, the
`Grader` constructor succeeds for every `model_filepath` (absent or
`None` included) without touching any artifact file, and the internal
model stays `None`. -/
theorem C9_constructor_validation (d : String) (fp : Option MFile) :
    BaseModel.init (.nonbool d) =
      .error (.typeError ("baseline_mode must be a boolean"))
    ∧ Grader.init fp (.nonbool d) =
      .error (.typeError ("baseline_mode must be a boolean"))
    ∧ Grader.init fp (.pybool true) =
      .ok { baseline_mode := true, model := none } :=
  ⟨rfl, rfl, rfl⟩

/-- C10: `DataGrader.set_model` leaves both the loaded model and the
stored `model_type` unchanged whenever the requested type equals the
current one or is not RF or XGB; a recognized, different type loads the
corresponding hypertuned artifact and updates `model_type`. -/
theorem C10_set_model_frame (g : DataGrader) (mt : String) :
    ((mt = g.model_type ∨ (mt ≠ "RF" ∧ mt ≠ "XGB")) →
      (g.set_model mt).model = g.model
      ∧ (g.set_model mt).model_type = g.model_type)
    ∧ (g.model_type ≠ mt → mt = "RF" →
        g.set_model mt =
          { g with model := g.model_store (MODELS_PATH ++ "rf_hypertuned.pkl"),
                   model_type := mt })
    ∧ (g.model_type ≠ mt → mt = "XGB" →
        g.set_model mt =
          { g with model := g.model_store (MODELS_PATH ++ "xgb_hypertuned.pkl"),
                   model_type := mt }) := by
  refine ⟨?_, ?_, ?_⟩
  · intro h
    unfold DataGrader.set_model
    by_cases he : g.model_type = mt
    · rw [if_pos he]; exact ⟨rfl, rfl⟩
    · rcases h with heq | ⟨h1, h2⟩
      · exact absurd heq.symm he
      · rw [if_neg he, if_neg h1, if_neg h2]; exact ⟨rfl, rfl⟩
  · intro hne hrf
    subst hrf
    unfold DataGrader.set_model
    rw [if_neg hne, if_pos rfl]
  · intro hne hxgb
    subst hxgb
    unfold DataGrader.set_model
    rw [if_neg hne, if_neg (by decide), if_pos rfl]

/-- C10 witness: requesting KNN — a name outside RF and XGB — leaves a
concrete grader's model and model type untouched. -/
theorem C10_set_model_frame_witness :
    ((dgConst 0 []).set_model ("KNN")).model = (dgConst 0 []).model
    ∧ ((dgConst 0 []).set_model ("KNN")).model_type =
      (dgConst 0 []).model_type :=
  (C10_set_model_frame (dgConst 0 []) ("KNN")).1 (Or.inr (by decide))
